import Mathlib

/-!
Verification development for the schema-generation core of the
Text_to_query_example repository (`server/schema_generator.py`).

The Python code is shallowly embedded: MongoDB/Python values become the
inductive type `PyVal`, Python dicts become insertion-ordered association
lists, numeric values become `Rat` (the float/`round(x, 2)` arithmetic of
the source only ever produces small dyadic fractions on the inputs the
claims exercise, where float and rational arithmetic agree on every
comparison performed), and the partial Python operations reached by the
code (`sorted` / `set` over mixed-type values) become `Except String`
computations whose `.error` case models an uncaught `TypeError`.
The `$sample` aggregation stage is random in MongoDB; it is modelled as an
explicit sampler argument, so theorems can quantify over samplers or fix a
concrete one.
-/

set_option maxRecDepth 10000

namespace SchemaGen

/-- A Python/BSON value as handled by `schema_generator.py`: `None`, `bool`,
`int`, `float` (as a rational), `str`, `list`, `dict` (insertion ordered),
`bson.ObjectId` (24 hex characters, stored lowercased) and `datetime`
(as an integer timestamp). -/
inductive PyVal where
  | none
  | bool (b : Bool)
  | int (n : Int)
  | num (q : Rat)
  | str (s : String)
  | arr (xs : List PyVal)
  | obj (kvs : List (String × PyVal))
  | objectId (hex : String)
  | datetime (t : Int)
deriving Repr

/-- A MongoDB document: an insertion-ordered mapping of field names to values. -/
abbrev Doc := List (String × PyVal)

/-- Ordered-dict lookup: the value at the first matching key, if any. -/
def dictLookup {α : Type} (d : List (String × α)) (k : String) : Option α :=
  match d with
  | [] => Option.none
  | (k', v) :: rest => if k' = k then some v else dictLookup rest k

/-- Ordered-dict update `d[k] = v`: replaces the value in place when the key
exists (keeping its position, as Python dicts do) and appends otherwise. -/
def dictInsert {α : Type} (d : List (String × α)) (k : String) (v : α) :
    List (String × α) :=
  match d with
  | [] => [(k, v)]
  | (k', v') :: rest =>
    if k' = k then (k, v) :: rest else (k', v') :: dictInsert rest k v

/-- Python's `{**a, **b}`: entries of `b` override or extend `a`. -/
def dictUnion {α : Type} (a b : List (String × α)) : List (String × α) :=
  b.foldl (fun acc kv => dictInsert acc kv.1 kv.2) a

/-- Numeric view of a value: Python compares `bool`, `int` and `float`
within one numeric class (`True == 1`, `0.5 < 1`, ...). -/
def pyToRat : PyVal → Option Rat
  | .bool b => some (if b then 1 else 0)
  | .int n => some (n : Rat)
  | .num q => some q
  | _ => Option.none

mutual

/-- Python `==` (also used to model MongoDB `$in` membership): numeric values
compare across `bool`/`int`/`float`; other classes compare only with
themselves; containers compare element-wise. -/
def pyEq : PyVal → PyVal → Bool
  | .none, .none => true
  | .str s, .str t => s == t
  | .objectId s, .objectId t => s == t
  | .datetime s, .datetime t => s == t
  | .arr xs, .arr ys => pyEqList xs ys
  | .obj xs, .obj ys => xs.length == ys.length && pyEqObj xs ys
  | a, b =>
    match pyToRat a, pyToRat b with
    | some x, some y => x == y
    | _, _ => false

/-- Element-wise equality of Python lists. -/
def pyEqList : List PyVal → List PyVal → Bool
  | [], [] => true
  | x :: xs, y :: ys => pyEq x y && pyEqList xs ys
  | _, _ => false

/-- Key-wise equality of Python dicts (same size, every key of the first
present in the second with an equal value). -/
def pyEqObj : List (String × PyVal) → List (String × PyVal) → Bool
  | [], _ => true
  | (k, v) :: rest, ys =>
    (match dictLookup ys k with
     | some w => pyEq v w
     | Option.none => false) && pyEqObj rest ys

end

/-- Python truthiness (`if value:`): `None`, `False`, zero, and empty
strings/containers are falsy. -/
def pyTruthy : PyVal → Bool
  | .none => false
  | .bool b => b
  | .int n => n != 0
  | .num q => q != 0
  | .str s => s != ""
  | .arr xs => !xs.isEmpty
  | .obj kvs => !kvs.isEmpty
  | .objectId _ => true
  | .datetime _ => true

/-- Lexicographic `<` on character lists by code point (Python string
comparison). -/
def charsLt : List Char → List Char → Bool
  | _, [] => false
  | [], _ :: _ => true
  | a :: as, b :: bs =>
    Nat.blt a.toNat b.toNat || (a.toNat == b.toNat && charsLt as bs)

/-- Python `<` on strings. -/
def pyStrLt (s t : String) : Bool := charsLt s.data t.data

mutual

/-- Python `<` on the value classes that can reach `sorted()` in the source
(strings, numerics, lists, datetimes). A comparison across classes raises
`TypeError`, modelled as `.error`. -/
def pyLtE : PyVal → PyVal → Except String Bool
  | .str s, .str t => .ok (pyStrLt s t)
  | .datetime s, .datetime t => .ok (decide (s < t))
  | .arr xs, .arr ys => pyLtListE xs ys
  | a, b =>
    match pyToRat a, pyToRat b with
    | some x, some y => .ok (decide (x < y))
    | _, _ => .error "TypeError: unsupported comparison between mixed types"

/-- Python list `<`: lexicographic, first differing element decides. -/
def pyLtListE : List PyVal → List PyVal → Except String Bool
  | [], [] => .ok false
  | [], _ :: _ => .ok true
  | _ :: _, [] => .ok false
  | x :: xs, y :: ys =>
    if pyEq x y then pyLtListE xs ys else pyLtE x y

end

/-- One step of insertion sort, raising when the element is not comparable
with the sorted prefix (as Python's sort does on mixed-type input). -/
def pyInsertSortedE (x : PyVal) : List PyVal → Except String (List PyVal)
  | [] => .ok [x]
  | y :: ys => do
    let b ← pyLtE x y
    if b then .ok (x :: y :: ys)
    else do
      let rest ← pyInsertSortedE x ys
      .ok (y :: rest)

/-- Python `sorted(...)`: succeeds (with the sorted list) on values that are
pairwise comparable, and raises `TypeError` on mixed-type input, exactly as
the interpreter does -- sorting must compare elements of distinct classes at
some point, so any mix of (say) strings and integers raises. -/
def pySortedE : List PyVal → Except String (List PyVal)
  | [] => .ok []
  | x :: xs => do
    let s ← pySortedE xs
    pyInsertSortedE x s

/-- Values Python cannot hash: lists and dicts (so `set(values)` raises on
them); everything else the analyzer stores is hashable. -/
def pyUnhashable : PyVal → Bool
  | .arr _ => true
  | .obj _ => true
  | _ => false

/-- Distinct values in first-occurrence order (set order in CPython is
hash-dependent, but every use in the source sorts or counts the result, so
the order chosen here is irrelevant). -/
def pyDedup (l : List PyVal) : List PyVal :=
  l.foldl (fun acc v => if acc.any (fun w => pyEq w v) then acc else acc ++ [v]) []

/-- Python `set(values)`: distinct values, raising `TypeError` when a value
is unhashable (a list stored for an array-typed field). -/
def pySetList (l : List PyVal) : Except String (List PyVal) :=
  if l.any pyUnhashable then .error "TypeError: unhashable type" else .ok (pyDedup l)

/-- The exact quotient `num / den` as a rational (0 when `den = 0`, matching
the guarded divisions of the source). Expressed through `mkRat` -- which
equals the division of the corresponding rationals -- so that concrete runs
reduce inside the kernel. -/
def ratio (num den : Nat) : Rat := mkRat (Int.ofNat num) den

/-- Python `round(x, 2)` (half-to-even at the midpoint), computed on the
numerator/denominator representation: `x*100` has floor `f` and fractional
part `rem/den`, and the rounded value is `n/100`. -/
def pyRound2 (q : Rat) : Rat :=
  let num : Int := q.num * 100
  let den : Int := (q.den : Int)
  let f : Int := num.fdiv den
  let rem : Int := num.fmod den
  let n : Int :=
    if 2 * rem < den then f
    else if 2 * rem > den then f + 1
    else if f % 2 = 0 then f else f + 1
  mkRat n 100

/-! ## The document store

A collection carries its documents (in natural order) and the
`(field, unique)` pairs contributed by its non-default secondary indexes, in
`list_indexes()` order. `$sample` is random in MongoDB and is passed to the
analyzer as an explicit sampler function; deterministic pipelines
(`$match`/`$limit`/`$project`) are embedded directly over the document
list. -/

/-- A MongoDB collection as consumed by `SchemaGenerator`. -/
structure Collection where
  docs : List Doc
  secondaryIndexes : List (String × Bool)

/-- A MongoDB database: named collections; accessing an unknown name yields
an empty collection, as `db[name]` does in pymongo. -/
structure DB where
  colls : List (String × Collection)

/-- `self.db[collection_name]`. -/
def getColl (db : DB) (name : String) : Collection :=
  (dictLookup db.colls name).getD ⟨[], []⟩

/-- A sampler: the outcome of `collection.aggregate([{$sample: {size: n}}])`
for each collection name and size. -/
abbrev Sampler := String → Nat → List Doc

/-- The deterministic sampler that returns the first `n` documents; one valid
refinement of `$sample` (which returns `n` documents in random order). -/
def takeSampler (db : DB) : Sampler := fun name n => (getColl db name).docs.take n

/-! ## Field Type Analyzer (`_get_type`, `_collect_field_stats`,
`_analyze_fields`, `_detect_indexes`, `analyze_collection`) -/

/-- `_is_iso_date`: the string starts with `YYYY-MM-DDThh:mm:ss`
(the regex `^\d\x7b4\x7d-\d\x7b2\x7d-\d\x7b2\x7dT\d\x7b2\x7d:\d\x7b2\x7d:\d\x7b2\x7d`). -/
def is_iso_date (s : String) : Bool :=
  match s.data with
  | a :: b :: c :: d :: '-' :: e :: f :: '-' :: g :: h :: 'T' ::
      i :: j :: ':' :: k :: l :: ':' :: m :: n :: _ =>
    [a, b, c, d, e, f, g, h, i, j, k, l, m, n].all Char.isDigit
  | _ => false

/-- `_get_type`: the type tag of a value, tested in the source's
`isinstance` order (`bool` before `int`; ISO-looking strings are `date`). -/
def get_type : PyVal → String
  | .none => "null"
  | .bool _ => "boolean"
  | .int _ => "integer"
  | .num _ => "number"
  | .str s => if is_iso_date s then "date" else "string"
  | .arr _ => "array"
  | .obj _ => "object"
  | .objectId _ => "objectId"
  | .datetime _ => "date"

/-- The per-field accumulator of `_analyze_fields` (`types` is a
`collections.Counter`, insertion ordered). -/
structure FieldStats where
  types : List (String × Nat) := []
  values : List PyVal := []
  present_count : Nat := 0
  null_count : Nat := 0

/-- `Counter.most_common(1)`: the entry with the greatest count, earliest
inserted on ties. -/
def counterMostCommon (c : List (String × Nat)) : Option String :=
  (c.foldl (fun best kv =>
    match best with
    | Option.none => some kv
    | some b => if kv.2 > b.2 then some kv else some b) Option.none).map Prod.fst

/-- `Counter[k] += 1`. -/
def counterIncr (c : List (String × Nat)) (k : String) : List (String × Nat) :=
  dictInsert c k ((dictLookup c k).getD 0 + 1)

/-- Python's `value is None` test. -/
def isNoneVal : PyVal → Bool
  | .none => true
  | _ => false

/-- The body of `_collect_field_stats` for a single `(key, value)` pair:
count nulls and presences, tally the type, and store the value (cap 100)
when its type is string/integer/boolean or array. The source also carries a
field-name prefix parameter for nested objects, but never recurses into
`dict` values, so top-level keys are the only field names produced. -/
def updateFieldStats (stats : List (String × FieldStats)) (key : String)
    (v : PyVal) : List (String × FieldStats) :=
  let st := (dictLookup stats key).getD {}
  let st :=
    if isNoneVal v then { st with null_count := st.null_count + 1 }
    else
      let t := get_type v
      let st := { st with present_count := st.present_count + 1,
                          types := counterIncr st.types t }
      if st.values.length < 100 &&
          (t == "string" || t == "integer" || t == "boolean" || t == "array") then
        { st with values := st.values ++ [v] }
      else st
  dictInsert stats key st

/-- `_collect_field_stats` over every document (fields in document order,
documents in sample order). -/
def collect_field_stats (documents : List Doc) : List (String × FieldStats) :=
  documents.foldl (fun stats doc =>
    doc.foldl (fun stats kv => updateFieldStats stats kv.1 kv.2) stats) []

/-- The per-field analysis record built by `_analyze_fields`
(dict keys modelled as `Option` fields: `none` = key absent;
`example` is the stored `values[0] if values else None`). -/
structure Analysis where
  primary_type : String
  presence_rate : Rat
  «example» : Option PyVal
  enum_values : Option (List PyVal) := Option.none
  items : Option String := Option.none

/-- `Counter` over the first elements of the sampled arrays
(`item_types` in `_analyze_fields`). -/
def itemTypesOf (values : List PyVal) : List (String × Nat) :=
  values.foldl (fun c v =>
    match v with
    | .arr (x :: _) => counterIncr c (get_type x)
    | _ => c) []

/-- The loop body of `_analyze_fields` for one field: primary type, presence
rate, example, enum candidates (primary type string, `set(values)` -- which
raises on unhashable stored lists -- of size in (1, 10]), and the majority
array item type. -/
def analyzeField (st : FieldStats) (total_docs : Nat) : Except String Analysis :=
  let primary := (counterMostCommon st.types).getD "unknown"
  let base : Analysis :=
    { primary_type := primary,
      presence_rate := ratio st.present_count total_docs,
      «example» := st.values.head? }
  let withEnum : Except String Analysis :=
    if primary = "string" then do
      let uniq ← pySetList st.values
      if uniq.length ≤ 10 ∧ uniq.length > 1 then
        pure { base with enum_values := some uniq }
      else pure base
    else pure base
  withEnum.map (fun a =>
    if primary = "array" then
      match counterMostCommon (itemTypesOf st.values) with
      | some t => { a with items := some t }
      | Option.none => a
    else a)

/-- `_analyze_fields`: statistics then per-field analysis, propagating the
`TypeError` the enum branch can raise. -/
def analyze_fields (documents : List Doc) :
    Except String (List (String × Analysis)) :=
  (collect_field_stats documents).mapM (fun p =>
    (analyzeField p.2 documents.length).map (fun a => (p.1, a)))

/-- `_detect_indexes`: the secondary-index fields in catalog order, with
`_id` always reported as a unique index. -/
def detect_indexes (c : Collection) : List (String × Bool) :=
  dictInsert
    (c.secondaryIndexes.foldl (fun acc fu => dictInsert acc fu.1 fu.2) [])
    "_id" true

/-- `_generate_field_description`: `_id` is special-cased; otherwise a space
is inserted before each capital, underscores become spaces, the result is
stripped and capitalized (first letter up, rest lowered, as Python's
`str.capitalize` does). -/
def generate_field_description (field_name : String) : String :=
  if field_name = "_id" then "Unique document identifier"
  else
    let cs := field_name.data.foldr
      (fun c acc => if c.isUpper then ' ' :: c :: acc else c :: acc) []
    let cs := cs.map (fun c => if c = '_' then ' ' else c)
    let cs := ((cs.dropWhile (· = ' ')).reverse.dropWhile (· = ' ')).reverse
    match cs with
    | [] => ""
    | c :: rest => String.mk (c.toUpper :: rest.map Char.toLower)

/-- A field definition as written into the schema artifact. Optional JSON
keys are `Option`/`Bool` fields (`indexed`/`unique` are only ever set to
`True` by the source, so presence is a `Bool`). The source's `properties`
key is never emitted: the branch that would fill `analysis['properties']`
for nested objects is a `pass`, so `analysis.get('properties')` is always
`None`. -/
structure FieldDef where
  type : String
  description : String := ""
  indexed : Bool := false
  unique : Bool := false
  enum : Option (List PyVal) := Option.none
  «example» : Option PyVal := Option.none
  items : Option String := Option.none
deriving Repr

/-- The field-definition loop body of `analyze_collection`: type and
description, index flags, the sorted enum (truthiness-guarded, may raise
`TypeError` on mixed-type values), the truthiness-guarded example, and the
array item type. -/
def buildFieldDef (field_name : String) (a : Analysis)
    (indexes : List (String × Bool)) : Except String FieldDef := do
  let base : FieldDef :=
    { type := a.primary_type, description := generate_field_description field_name }
  let base :=
    match dictLookup indexes field_name with
    | some u =>
      let b := { base with indexed := true }
      if u then { b with unique := true } else b
    | Option.none => base
  let base ←
    match a.enum_values with
    | some uniq =>
      if uniq.length > 0 then do
        let sortedVals ← pySortedE uniq
        pure { base with enum := some sortedVals }
      else pure base
    | Option.none => pure base
  let base :=
    match a.«example» with
    | some v => if pyTruthy v then { base with «example» := some v } else base
    | Option.none => base
  let base :=
    if a.primary_type = "array" then
      match a.items with
      | some t => { base with items := some t }
      | Option.none => base
    else base
  pure base

/-- The full schema analysis of one collection (`analyze_collection`'s
return dictionary). -/
structure CollAnalysis where
  collection : String
  description : String
  fields : List (String × FieldDef)
  indexes : List String
  total_documents : Nat
  sampled_documents : Nat
deriving Repr

/-- `analyze_collection`: empty collections short-circuit (no sampling
call); otherwise sample `min(sample_size, total)` documents, analyze the
fields, read the indexes and build the field definitions, propagating any
`TypeError` from the enum branch. -/
def analyze_collection (db : DB) (sampler : Sampler) (collection_name : String)
    (sample_size : Nat) : Except String CollAnalysis :=
  let coll := getColl db collection_name
  let total_docs := coll.docs.length
  if total_docs = 0 then
    .ok { collection := collection_name,
          description := "Collection " ++ collection_name ++ " (empty)",
          fields := [], indexes := [],
          total_documents := 0, sampled_documents := 0 }
  else
    let actual_sample_size := min sample_size total_docs
    let documents := sampler collection_name actual_sample_size
    let indexes := detect_indexes coll
    match (analyze_fields documents).bind (fun fa =>
        fa.mapM (fun p => (buildFieldDef p.1 p.2 indexes).map (fun fd => (p.1, fd)))) with
    | .error e => .error e
    | .ok fields =>
      .ok { collection := collection_name,
            description := "Auto-generated schema for " ++ collection_name ++ " collection",
            fields := fields,
            indexes := indexes.map Prod.fst,
            total_documents := total_docs,
            sampled_documents := actual_sample_size }

/-! ## Relationship Detector (`_is_potential_foreign_key`,
`_find_target_collection`, `_validate_relationship`) -/

/-- Substring test over character lists (Python's `needle in haystack`). -/
def charsLeadWith : List Char → List Char → Bool
  | [], _ => true
  | _ :: _, [] => false
  | a :: as, b :: bs => a == b && charsLeadWith as bs

/-- Python's `pat in s` substring containment. -/
def strContainsSub (s pat : String) : Bool :=
  let rec go : List Char → Bool
    | [] => pat.data.isEmpty
    | c :: rest => charsLeadWith pat.data (c :: rest) || go rest
  go s.data

/-- Python's `str.lower()` (character-wise, which agrees on the ASCII field
names involved). -/
def lowerStr (s : String) : String := String.mk (s.data.map Char.toLower)

/-- Python's `str.endswith(suf)`. -/
def endsWithStr (s suf : String) : Bool :=
  charsLeadWith suf.data.reverse s.data.reverse

/-- Dropping the last `n` characters (the effect of stripping a matched
suffix of length `n`). -/
def dropRightStr (s : String) (n : Nat) : String :=
  String.mk (s.data.take (s.data.length - n))

/-- `_is_potential_foreign_key`: the name matches one of the
case-insensitive suffix patterns `_id`, `_ids`, `_ref`, `_key`. -/
def is_potential_foreign_key (field_name : String) : Bool :=
  let l := lowerStr field_name
  endsWithStr l "_id" || endsWithStr l "_ids" || endsWithStr l "_ref" ||
    endsWithStr l "_key"

/-- `_find_target_collection`: strip the matched suffix
(`re.sub` with `_(id|ids|ref|key)$`, case-insensitive, longest alternative
that reaches the end), then return the first non-empty candidate among
base, base+`s`, base minus a trailing `s`, base+`es`, base minus a trailing
`es` that names a known collection. -/
def find_target_collection (field_name : String) (collection_names : List String) :
    Option String :=
  let l := lowerStr field_name
  let base :=
    if endsWithStr l "_ids" then dropRightStr field_name 4
    else if endsWithStr l "_id" then dropRightStr field_name 3
    else if endsWithStr l "_ref" then dropRightStr field_name 4
    else if endsWithStr l "_key" then dropRightStr field_name 4
    else field_name
  let candidates : List (Option String) :=
    [some base,
     some (base ++ "s"),
     if endsWithStr base "s" then some (dropRightStr base 1) else Option.none,
     some (base ++ "es"),
     if endsWithStr base "es" then some (dropRightStr base 2) else Option.none]
  (candidates.filterMap id).find? (fun c => c != "" && collection_names.contains c)

/-- A document satisfies `{field: {$ne: None, $exists: True}}`. -/
def fieldExistsNonNull (d : Doc) (field : String) : Bool :=
  match dictLookup d field with
  | some v => !isNoneVal v
  | Option.none => false

/-- Is the char an ASCII hex digit (the alphabet `bson.ObjectId` accepts)? -/
def isHexChar (c : Char) : Bool :=
  c.isDigit || ('a' ≤ c && c ≤ 'f') || ('A' ≤ c && c ≤ 'F')

/-- The ObjectId-coercion loop of `_validate_relationship`: a 24-character
string becomes an `ObjectId` when it parses (24 hex chars, compared
case-insensitively, hence stored lowercased), and is kept as-is otherwise;
non-strings pass through. -/
def convertCheckValue (v : PyVal) : PyVal :=
  match v with
  | .str s =>
    if s.data.length = 24 then
      if s.data.all isHexChar then .objectId (lowerStr s) else .str s
    else .str s
  | _ => v

/-- `count_documents({field: {$in: values}})`: how many documents of the
collection hold one of the given values in `field` (a missing field reads
as null). -/
def countFieldIn (c : Collection) (field : String) (values : List PyVal) : Nat :=
  (c.docs.filter (fun d =>
    values.any (fun v => pyEq ((dictLookup d field).getD .none) v))).length

/-- A validated foreign-key relationship (`from`/`to`/`type`/`field` of the
emitted dictionary). -/
structure FKRel where
  «from» : String
  «to» : String
  type : String
  field : String
  description : String
  confidence : Rat
deriving Repr, DecidableEq

/-- The source-side sampling pipeline of `_validate_relationship`:
up to 50 documents with a non-null value in the field. -/
def fkSampleDocs (db : DB) (source : String) (field : String) : List Doc :=
  ((getColl db source).docs.filter (fun d => fieldExistsNonNull d field)).take 50

/-- The extracted foreign-key values: list values are flattened when the
field's inferred type is `array`, scalars are appended. -/
def fkValues (db : DB) (source : String) (field : String) (field_info : FieldDef) :
    List PyVal :=
  let is_array := field_info.type = "array"
  (fkSampleDocs db source field).foldr (fun d acc =>
    match dictLookup d field with
    | some v =>
      if isNoneVal v then acc
      else if is_array then
        match v with
        | .arr l => l ++ acc
        | _ => v :: acc
      else v :: acc
    | Option.none => acc) []

/-- The first 20 extracted values, which are the ones checked. -/
def fkCheckValues (db : DB) (source : String) (field : String)
    (field_info : FieldDef) : List PyVal :=
  (fkValues db source field field_info).take 20

/-- How many target documents have one of the checked values as `_id`
(after ObjectId coercion). Note this counts matching documents, not
matching values: duplicated check values can match a single document. -/
def fkMatches (db : DB) (source : String) (field : String) (target : String)
    (field_info : FieldDef) : Nat :=
  countFieldIn (getColl db target) "_id"
    ((fkCheckValues db source field field_info).map convertCheckValue)

/-- `matches / len(check_values)` (0 when no values were checked, as the
source's `if check_values else 0` guard yields). -/
def fkConfidence (db : DB) (source : String) (field : String) (target : String)
    (field_info : FieldDef) : Rat :=
  ratio (fkMatches db source field target field_info)
    (fkCheckValues db source field field_info).length

/-- `_validate_relationship`: sample, extract, check, and emit the
relationship only when the confidence is strictly above 0.8; the emitted
type is many-to-many for array-typed source fields and many-to-one
otherwise, and the recorded confidence is rounded to 2 digits. -/
def validate_relationship (db : DB) (source : String) (field : String)
    (target : String) (field_info : FieldDef) : Option FKRel :=
  if (fkSampleDocs db source field).isEmpty then Option.none
  else if (fkValues db source field field_info).isEmpty then Option.none
  else if fkConfidence db source field target field_info > mkRat 4 5 then
    some { «from» := source, «to» := target,
           type := if field_info.type = "array" then "many-to-many" else "many-to-one",
           field := field,
           description := source ++ " references " ++ target ++ " via " ++ field,
           confidence := pyRound2 (fkConfidence db source field target field_info) }
  else Option.none

/-! ## Correlation Detector (`_detect_correlation_fields`,
`_validate_correlation_field`) -/

/-- The filter of `_detect_correlation_fields`: not `_id`, string-typed,
flagged indexed, and named like a correlation id (`tracking` or
`correlation` case-insensitively anywhere, or a case-sensitive `_id`
suffix). -/
def isCorrelationCandidate (field_name : String) (field_info : FieldDef) : Bool :=
  field_name != "_id" &&
  field_info.type == "string" &&
  field_info.indexed &&
  (strContainsSub (lowerStr field_name) "tracking" ||
   strContainsSub (lowerStr field_name) "correlation" ||
   endsWithStr field_name "_id")

/-- The reverse index `field name -> collections carrying it as a
correlation candidate`, in first-occurrence order. -/
def fieldToCollections (collections_data : List (String × CollAnalysis)) :
    List (String × List String) :=
  collections_data.foldl (fun acc p =>
    p.2.fields.foldl (fun acc2 q =>
      if isCorrelationCandidate q.1 q.2 then
        dictInsert acc2 q.1 ((dictLookup acc2 q.1).getD [] ++ [p.1])
      else acc2) acc) []

/-- The validation result of `_validate_correlation_field`. -/
structure CorrOverlap where
  confidence : Rat
  sample_count : Nat
deriving Repr, DecidableEq

/-- `_validate_correlation_field`: sample up to 20 non-null values of the
field from the first contributing collection, count - in every other
contributing collection - the documents whose value is among them, and
report `round(total_matches / total_checks, 2)` with the raw match count.
An empty sample (or an empty collection list, on which the Python indexing
would raise and be caught) yields `None`. -/
def validate_correlation_field (db : DB) (field_name : String)
    (collection_list : List String) : Option CorrOverlap :=
  match collection_list with
  | [] => Option.none
  | first :: rest =>
    let sample_docs :=
      ((getColl db first).docs.filter (fun d => fieldExistsNonNull d field_name)).take 20
    if sample_docs.isEmpty then Option.none
    else
      let sample_values := sample_docs.filterMap (fun d => dictLookup d field_name)
      if sample_values.isEmpty then Option.none
      else
        let totals := rest.foldl (fun (t : Nat × Nat) other =>
          (t.1 + countFieldIn (getColl db other) field_name sample_values,
           t.2 + sample_values.length)) (0, 0)
        if totals.2 = 0 then Option.none
        else some { confidence := pyRound2 (ratio totals.1 totals.2),
                    sample_count := totals.1 }

/-- An emitted correlation relationship. -/
structure CorrRel where
  type : String := "correlation"
  field : String
  collections : List String
  description : String
  confidence : Rat
  sample_overlap : Nat
deriving Repr, DecidableEq

/-- The loop body of `_detect_correlation_fields` for one entry of the
reverse index: needs two or more collections, a successful validation, and
a (rounded) confidence strictly above 0.5. -/
def corrOfEntry (db : DB) (entry : String × List String) : Option CorrRel :=
  if entry.2.length ≥ 2 then
    match validate_correlation_field db entry.1 entry.2 with
    | some overlap =>
      if overlap.confidence > mkRat 1 2 then
        some { field := entry.1,
               collections := entry.2,
               description := "Collections linked via shared " ++ entry.1 ++ " field",
               confidence := overlap.confidence,
               sample_overlap := overlap.sample_count }
      else Option.none
    | Option.none => Option.none
  else Option.none

/-- `_detect_correlation_fields`. -/
def detect_correlation_fields (db : DB)
    (collections_data : List (String × CollAnalysis)) : List CorrRel :=
  (fieldToCollections collections_data).filterMap (corrOfEntry db)

/-! ## Relationships section and `detect_relationships` -/

/-- One entry of the combined `links` list: a foreign-key dictionary or a
correlation dictionary. -/
inductive RelLink where
  | fk (r : FKRel)
  | corr (c : CorrRel)
deriving Repr, DecidableEq

/-- Foreign-key dictionaries have `type` many-to-one/many-to-many, never
`correlation`, so `_build_relationships_section`'s `type != 'correlation'`
filter selects exactly the `fk` entries. -/
def RelLink.asFK : RelLink → Option FKRel
  | .fk r => some r
  | _ => Option.none

/-- The `type == 'correlation'` filter of `_build_relationships_section`. -/
def RelLink.asCorr : RelLink → Option CorrRel
  | .corr c => some c
  | _ => Option.none

/-- The relationships section of the artifact. The zero-relationship branch
of `detect_relationships` only carries `description` and `links`, so the
other keys are `Option`s. -/
structure RelSection where
  description : String
  foreign_keys : Option (List FKRel) := Option.none
  correlations : Option (List CorrRel) := Option.none
  links : List RelLink
  example_queries : Option (List String) := Option.none
deriving Repr, DecidableEq

/-- The two example-query strings for one foreign-key relationship
(guarded by the truthiness of the three names). -/
def fkExampleQueries (r : FKRel) : List String :=
  if r.«from» != "" && r.«to» != "" && r.field != "" then
    ["Find " ++ r.«from» ++ " by " ++ r.«to» ++ ": db." ++ r.«from» ++
       ".find(\x7b" ++ r.field ++ ": \x27<id>\x27\x7d)",
     "Join " ++ r.«from» ++ " with " ++ r.«to» ++ ": db." ++ r.«from» ++
       ".aggregate([\x7b$lookup: \x7bfrom: \x27" ++ r.«to» ++ "\x27, localField: \x27" ++
       r.field ++ "\x27, foreignField: \x27_id\x27, as: \x27" ++ r.«to» ++ "_data\x27\x7d\x7d])"]
  else []

/-- The two example-query strings for one correlation. -/
def corrExampleQueries (c : CorrRel) : List String :=
  if c.field != "" && c.collections.length ≥ 2 then
    ["Find related records via " ++ c.field ++ ": db." ++
       (c.collections.headD "") ++ ".find(\x7b" ++ c.field ++ ": \x27<value>\x27\x7d)",
     "Correlate " ++ String.intercalate ", " c.collections ++ " via " ++ c.field ++
       ": Use " ++ c.field ++ " to link records across collections"]
  else []

/-- `_build_relationships_section`: split the combined list, build example
queries for the first two findings of each kind, and keep the combined list
under `links`. -/
def build_relationships_section (relationships : List RelLink) : RelSection :=
  let fk_relationships := relationships.filterMap RelLink.asFK
  let correlation_relationships := relationships.filterMap RelLink.asCorr
  let example_queries :=
    ((fk_relationships.take 2).map fkExampleQueries).flatten ++
    ((correlation_relationships.take 2).map corrExampleQueries).flatten
  { description := "Detected " ++ toString relationships.length ++
      " relationship(s) between collections",
    foreign_keys := some fk_relationships,
    correlations := some correlation_relationships,
    links := relationships,
    example_queries := some example_queries }

/-- Phase 1 of `detect_relationships`: for every field of every analyzed
collection that looks like a foreign key and resolves to a target
collection, the validated relationship, in iteration order. -/
def detectForeignKeys (db : DB)
    (collections_data : List (String × CollAnalysis)) : List FKRel :=
  let collection_names := collections_data.map Prod.fst
  collections_data.foldr (fun p acc =>
    p.2.fields.filterMap (fun q =>
      if is_potential_foreign_key q.1 then
        match find_target_collection q.1 collection_names with
        | some target => validate_relationship db p.1 q.1 target q.2
        | Option.none => Option.none
      else Option.none) ++ acc) []

/-- `detect_relationships`: foreign keys, then correlations; a non-empty
combined list is wrapped by `_build_relationships_section`, an empty one
yields the fixed no-relationships dictionary. -/
def detect_relationships (db : DB)
    (collections_data : List (String × CollAnalysis)) : RelSection :=
  let relationships : List RelLink :=
    (detectForeignKeys db collections_data).map RelLink.fk ++
    (detect_correlation_fields db collections_data).map RelLink.corr
  if relationships.isEmpty then
    { description := "No relationships detected between collections", links := [] }
  else build_relationships_section relationships

/-! ## Schema Merger & Persistence (`_merge_with_existing_schemas`,
`_save_schemas`, `generate_schemas`) -/

/-- A per-collection entry of the persisted artifact (`description` +
`fields`). -/
structure CollOut where
  description : String
  fields : List (String × FieldDef)

/-- The persisted `schemas.json` root object. The file-system state is
modelled as `Option SchemaArtifact`: `none` for a missing file (and for an
unreadable one, which the source's `except` reduces to the same "use only
the new schemas" outcome). -/
structure SchemaArtifact where
  description : String
  collections : List (String × CollOut)
  relationships : Option RelSection := Option.none

/-- The per-collection body of the merge loop in
`_merge_with_existing_schemas`: when the collection also exists on disk,
the persisted field definitions override the fresh ones
(`\x7b**new_fields, **existing_fields\x7d`) and fresh-only fields are
added. -/
def mergeCollOut (existing_collections : List (String × CollOut))
    (coll_name : String) (new_schema : CollOut) : CollOut :=
  match dictLookup existing_collections coll_name with
  | some es => { new_schema with fields := dictUnion new_schema.fields es.fields }
  | Option.none => new_schema

/-- `_merge_with_existing_schemas` proper: with no readable artifact the
new schemas stand; otherwise the per-collection merge above is applied and
all persisted collections are combined with the (updated) new ones
(`\x7b**existing_collections, **new_schemas\x7d`). -/
def merge_with_existing_schemas (file_state : Option SchemaArtifact)
    (new_schemas : List (String × CollOut)) : List (String × CollOut) :=
  match file_state with
  | Option.none => new_schemas
  | some existing =>
    dictUnion existing.collections
      (new_schemas.map (fun p => (p.1, mergeCollOut existing.collections p.1 p.2)))

/-- The statistics dictionary returned by `generate_schemas`. -/
structure GenStats where
  collections_analyzed : Nat
  relationships_found : Nat
  total_fields : Nat
deriving Repr, DecidableEq

/-- The result dictionary returned by `generate_schemas`. -/
structure GenResult where
  success : Bool
  generated_schemas : List (String × CollOut)
  relationships : Option RelSection
  stats : GenStats

/-- The analysis loop of `generate_schemas`: analyze each requested
collection in order into an insertion-ordered dictionary, propagating the
first analysis failure (the source does not catch it). -/
def analyzeAllLoop (db : DB) (sampler : Sampler) (sample_size : Nat)
    (acc : List (String × CollAnalysis)) :
    List String → Except String (List (String × CollAnalysis))
  | [] => .ok acc
  | name :: rest =>
    (analyze_collection db sampler name sample_size).bind (fun a =>
      analyzeAllLoop db sampler sample_size (dictInsert acc name a) rest)

/-- `collections_data` of a run. -/
def analyzeAll (db : DB) (sampler : Sampler) (collection_names : List String)
    (sample_size : Nat) : Except String (List (String × CollAnalysis)) :=
  analyzeAllLoop db sampler sample_size [] collection_names

/-- The per-collection schema entry written into the artifact
(`schemas[collection_name] = \x7bdescription, fields\x7d`). -/
def collOutOfAnalysis (d : CollAnalysis) : CollOut :=
  { description := d.description, fields := d.fields }

/-- The pure tail of `generate_schemas` once every collection analyzed
successfully: optional relationship detection, schema building, the
merge-strategy step, the final artifact (which `_save_schemas` writes,
i.e. the new file state), and the returned statistics. -/
def generateFrom (db : DB) (collection_names : List String)
    (detect_relationships_flag : Bool) (merge_strategy : String)
    (file_state : Option SchemaArtifact)
    (collections_data : List (String × CollAnalysis)) :
    GenResult × SchemaArtifact :=
  let relationships : Option RelSection :=
    if detect_relationships_flag && collection_names.length > 1 then
      some (detect_relationships db collections_data)
    else Option.none
  let schemas := collections_data.map (fun p => (p.1, collOutOfAnalysis p.2))
  let schemas :=
    if merge_strategy = "merge" then merge_with_existing_schemas file_state schemas
    else schemas
  let final_schema : SchemaArtifact :=
    { description := "Auto-generated schemas for " ++
        toString collection_names.length ++ " collection(s)",
      collections := schemas,
      relationships := relationships }
  let total_fields := (schemas.map (fun p => p.2.fields.length)).sum
  ({ success := true,
     generated_schemas := schemas,
     relationships := relationships,
     stats := { collections_analyzed := collection_names.length,
                relationships_found := (relationships.map (fun r => r.links.length)).getD 0,
                total_fields := total_fields } },
   final_schema)

/-- `generate_schemas`: analyze (fatal on failure), then the pure tail.
The second component of the pair is the artifact written to disk. -/
def generate_schemas (db : DB) (sampler : Sampler) (collection_names : List String)
    (sample_size : Nat) (detect_relationships_flag : Bool)
    (merge_strategy : String) (file_state : Option SchemaArtifact) :
    Except String (GenResult × SchemaArtifact) :=
  (analyzeAll db sampler collection_names sample_size).map
    (generateFrom db collection_names detect_relationships_flag merge_strategy file_state)

/-! ## Dictionary lemmas -/

theorem dictLookup_dictInsert {α : Type} (d : List (String × α)) (k : String)
    (v : α) (key : String) :
    dictLookup (dictInsert d k v) key = if k = key then some v else dictLookup d key := by
  induction d with
  | nil => simp [dictInsert, dictLookup]
  | cons hd tl ih =>
    obtain ⟨k', v'⟩ := hd
    by_cases hk : k' = k
    · subst hk
      by_cases hkey : k' = key <;> simp [dictInsert, dictLookup, hkey]
    · simp only [dictInsert, if_neg hk, dictLookup]
      by_cases hkey : k' = key
      · subst hkey
        have : ¬ (k = k') := fun h => hk h.symm
        simp [this]
      · simp [hkey, ih]

theorem mem_dictInsert {α : Type} {d : List (String × α)} {k : String} {v : α}
    {p : String × α} (h : p ∈ dictInsert d k v) : p = (k, v) ∨ p ∈ d := by
  induction d with
  | nil => simpa [dictInsert] using h
  | cons hd tl ih =>
    obtain ⟨k', v'⟩ := hd
    by_cases hk : k' = k
    · subst hk
      simp only [dictInsert, if_pos rfl] at h
      rcases List.mem_cons.mp h with h1 | h2
      · exact Or.inl h1
      · exact Or.inr (List.mem_cons_of_mem _ h2)
    · simp only [dictInsert, if_neg hk] at h
      rcases List.mem_cons.mp h with h1 | h2
      · exact Or.inr (h1 ▸ List.mem_cons_self _ _)
      · rcases ih h2 with h3 | h4
        · exact Or.inl h3
        · exact Or.inr (List.mem_cons_of_mem _ h4)

theorem dictLookup_eq_none_iff {α : Type} {d : List (String × α)} {k : String} :
    dictLookup d k = Option.none ↔ ∀ p ∈ d, p.1 ≠ k := by
  induction d with
  | nil => simp [dictLookup]
  | cons hd tl ih =>
    obtain ⟨k', v'⟩ := hd
    by_cases hk : k' = k
    · subst hk
      simp [dictLookup]
    · simp [dictLookup, hk, ih]

theorem keys_dictInsert_nodup {α : Type} {d : List (String × α)} {k : String}
    {v : α} (h : (d.map Prod.fst).Nodup) :
    ((dictInsert d k v).map Prod.fst).Nodup := by
  induction d with
  | nil => simp [dictInsert]
  | cons hd tl ih =>
    obtain ⟨k', v'⟩ := hd
    simp only [List.map_cons, List.nodup_cons] at h
    by_cases hk : k' = k
    · subst hk
      simpa [dictInsert, List.nodup_cons] using h
    · simp only [dictInsert, if_neg hk, List.map_cons, List.nodup_cons]
      refine ⟨fun hmem => ?_, ih h.2⟩
      rcases List.mem_map.mp hmem with ⟨p, hp, hp1⟩
      rcases mem_dictInsert hp with h1 | h2
      · exact hk (by rw [h1] at hp1; exact hp1.symm ▸ rfl)
      · exact h.1 (hp1 ▸ List.mem_map_of_mem Prod.fst h2)

theorem dictLookup_dictUnion {α : Type} (a b : List (String × α))
    (hb : (b.map Prod.fst).Nodup) (k : String) :
    dictLookup (dictUnion a b) k =
      (dictLookup b k).orElse (fun _ => dictLookup a k) := by
  induction b generalizing a with
  | nil => simp [dictUnion, dictLookup, Option.orElse]
  | cons hd tl ih =>
    obtain ⟨k', v'⟩ := hd
    simp only [List.map_cons, List.nodup_cons] at hb
    have hstep : dictUnion a ((k', v') :: tl) = dictUnion (dictInsert a k' v') tl := by
      simp [dictUnion]
    rw [hstep, ih _ hb.2]
    by_cases hk : k' = k
    · subst hk
      have htl : dictLookup tl k' = Option.none :=
        dictLookup_eq_none_iff.mpr (fun p hp hpk =>
          hb.1 (hpk ▸ List.mem_map_of_mem Prod.fst hp))
      simp [dictLookup, htl, dictLookup_dictInsert, Option.orElse]
    · simp [dictLookup, hk, dictLookup_dictInsert, Option.orElse]

theorem dictLookup_map_entry {α β : Type} (l : List (String × α))
    (f : String → α → β) (k : String) :
    dictLookup (l.map (fun p => (p.1, f p.1 p.2))) k =
      (dictLookup l k).map (f k) := by
  induction l with
  | nil => simp [dictLookup]
  | cons hd tl ih =>
    obtain ⟨k', v'⟩ := hd
    by_cases hk : k' = k
    · subst hk
      simp [dictLookup]
    · simp [dictLookup, hk, ih]

theorem keys_map_entry {α β : Type} (l : List (String × α)) (f : String → α → β) :
    (l.map (fun p => (p.1, f p.1 p.2))).map Prod.fst = l.map Prod.fst := by
  induction l with
  | nil => rfl
  | cons hd tl ih => simp [ih]

/-! ## Lemmas about the analysis loop of `generate_schemas` -/

theorem analyzeAllLoop_mem {db : DB} {sampler : Sampler} {k : Nat} :
    ∀ (names : List String) (acc cd : List (String × CollAnalysis)),
      analyzeAllLoop db sampler k acc names = .ok cd →
      ∀ p ∈ cd, p ∈ acc ∨ p.1 ∈ names := by
  intro names
  induction names with
  | nil =>
    intro acc cd h p hp
    simp only [analyzeAllLoop] at h
    cases h
    exact Or.inl hp
  | cons n rest ih =>
    intro acc cd h p hp
    simp only [analyzeAllLoop] at h
    cases ha : analyze_collection db sampler n k with
    | error e => rw [ha] at h; exact absurd h (by simp [Except.bind])
    | ok a =>
      rw [ha] at h
      simp only [Except.bind] at h
      rcases ih (dictInsert acc n a) cd h p hp with h1 | h2
      · rcases mem_dictInsert h1 with h3 | h4
        · exact Or.inr (by rw [h3]; exact List.mem_cons_self n rest)
        · exact Or.inl h4
      · exact Or.inr (List.mem_cons_of_mem n h2)

theorem analyzeAllLoop_lookup {db : DB} {sampler : Sampler} {k : Nat} :
    ∀ (names : List String) (acc cd : List (String × CollAnalysis)) (key : String),
      analyzeAllLoop db sampler k acc names = .ok cd →
      dictLookup cd key =
        if key ∈ names then (analyze_collection db sampler key k).toOption
        else dictLookup acc key := by
  intro names
  induction names with
  | nil =>
    intro acc cd key h
    simp only [analyzeAllLoop] at h
    cases h
    simp
  | cons n rest ih =>
    intro acc cd key h
    simp only [analyzeAllLoop] at h
    cases ha : analyze_collection db sampler n k with
    | error e => rw [ha] at h; exact absurd h (by simp [Except.bind])
    | ok a =>
      rw [ha] at h
      simp only [Except.bind] at h
      have hres := ih (dictInsert acc n a) cd key h
      by_cases hr : key ∈ rest
      · simp [hr, List.mem_cons] at hres ⊢
        exact hres
      · by_cases hn : key = n
        · subst hn
          simp only [hr, if_neg] at hres
          rw [dictLookup_dictInsert] at hres
          simp only [if_pos rfl] at hres
          simp [List.mem_cons, hr, hres, ha, Except.toOption]
        · have hnotin : key ∉ n :: rest := by
            simp [List.mem_cons, hn, hr]
          simp only [hr, if_neg, not_false_iff] at hres
          rw [dictLookup_dictInsert] at hres
          have : ¬ (n = key) := fun h' => hn h'.symm
          simp only [if_neg this] at hres
          simp [hnotin, hres]

theorem analyzeAllLoop_keys_nodup {db : DB} {sampler : Sampler} {k : Nat} :
    ∀ (names : List String) (acc cd : List (String × CollAnalysis)),
      (acc.map Prod.fst).Nodup →
      analyzeAllLoop db sampler k acc names = .ok cd →
      (cd.map Prod.fst).Nodup := by
  intro names
  induction names with
  | nil =>
    intro acc cd hacc h
    simp only [analyzeAllLoop] at h
    cases h
    exact hacc
  | cons n rest ih =>
    intro acc cd hacc h
    simp only [analyzeAllLoop] at h
    cases ha : analyze_collection db sampler n k with
    | error e => rw [ha] at h; exact absurd h (by simp [Except.bind])
    | ok a =>
      rw [ha] at h
      simp only [Except.bind] at h
      exact ih (dictInsert acc n a) cd (keys_dictInsert_nodup hacc) h

/-- The successful run of `generate_schemas` decomposes into a successful
analysis pass followed by the pure tail. -/
theorem generate_schemas_ok {db : DB} {sampler : Sampler} {names : List String}
    {k : Nat} {det : Bool} {strat : String} {st : Option SchemaArtifact}
    {res : GenResult} {art' : SchemaArtifact}
    (h : generate_schemas db sampler names k det strat st = .ok (res, art')) :
    ∃ cd, analyzeAll db sampler names k = .ok cd ∧
      generateFrom db names det strat st cd = (res, art') := by
  unfold generate_schemas at h
  cases hcd : analyzeAll db sampler names k with
  | error e => rw [hcd] at h; exact absurd h (by simp [Except.map])
  | ok cd =>
    rw [hcd] at h
    simp only [Except.map, Except.ok.injEq] at h
    exact ⟨cd, rfl, h⟩

/-! ## Concrete scenarios used by the claims -/

/-- A sample in which the field `x` is most often a string but also carries
an integer (3 distinct values in total). -/
def docsMixed : List Doc :=
  [[("x", .str "a")], [("x", .str "b")], [("x", .int 5)]]

/-- Database holding the mixed-type collection. -/
def dbC10 : DB := ⟨[("c", ⟨docsMixed, []⟩)]⟩

/-- 50 customers with integer primary keys 1..50. -/
def customers50 : List Doc :=
  (List.range 50).map (fun i => [("_id", PyVal.int ((i : Int) + 1))])

/-- 100 orders, each referencing the existing customer `1`. -/
def ordersDup : List Doc :=
  (List.range 100).map (fun i =>
    [("_id", PyVal.int (1000 + (i : Int))), ("customer_id", PyVal.int 1)])

/-- 100 orders referencing the existing customers 1..50 round-robin (the
first 20 checked values are pairwise distinct). -/
def ordersDistinct : List Doc :=
  (List.range 100).map (fun (i : Nat) =>
    [("_id", PyVal.int (1000 + (i : Int))), ("customer_id", PyVal.int (Int.ofNat (i % 50) + 1))])

/-- End-to-end database in which every order references customer 1. -/
def dbC1dup : DB :=
  ⟨[("orders", ⟨ordersDup, []⟩), ("customers", ⟨customers50, []⟩)]⟩

/-- End-to-end database with round-robin customer references. -/
def dbC1distinct : DB :=
  ⟨[("orders", ⟨ordersDistinct, []⟩), ("customers", ⟨customers50, []⟩)]⟩

/-- The type and confidence of an emitted link. -/
def relLinkTypeConf : RelLink → String × Rat
  | .fk r => (r.type, r.confidence)
  | .corr c => (c.type, c.confidence)

/-! ## Claim C10 -/

/-- Claim C10: `analyze_collection` is not total over document samples. On
a sample where the field `x` is a string in 2 of 3 documents and an integer
in the third (3 distinct recorded values, so the enum branch fires),
building the sorted enum list raises a `TypeError` that propagates to the
caller of `analyze_collection` (and through `generate_schemas`), instead of
producing a schema. -/
theorem claim_C10 :
    analyze_collection dbC10 (takeSampler dbC10) "c" 100 =
      .error "TypeError: unsupported comparison between mixed types" ∧
    generate_schemas dbC10 (takeSampler dbC10) ["c"] 100 true "merge" Option.none =
      .error "TypeError: unsupported comparison between mixed types" := by
  exact ⟨rfl, rfl⟩

/-! ## Claim C1 -/

/-- Claim C1, counterexample: a database satisfying every premise of the
scenario -- `orders` holds 100 sampled documents, each with an integer
`customer_id` pointing at an existing `customers._id`, and `customers`
holds 50 documents -- on which the run reports `relationshipsFound == 0`,
not `1`: all orders reference customer 1, so the 20 checked values match a
single target document (`count_documents` counts matching documents, not
matching values) and the confidence `1/20` falls below the 0.8 threshold. -/
theorem claim_C1_counterexample :
    ((generate_schemas dbC1dup (takeSampler dbC1dup) ["orders", "customers"] 100
        true "merge" Option.none).toOption).map
      (fun p => p.1.stats.relationships_found) = some 0 := by
  decide

/-- Claim C1, amended: in the end-to-end scenario the run reports
`relationshipsFound == 1` with the single emitted relationship having
`confidence == 1.0` and `type == "many-to-one"` provided the checked
`customer_id` values (the first 20 drawn in validation) are pairwise
distinct, as with round-robin references to customers 1..50. -/
theorem claim_C1_amended_theorem :
    ((generate_schemas dbC1distinct (takeSampler dbC1distinct) ["orders", "customers"] 100
        true "merge" Option.none).toOption).map
      (fun p => (p.1.stats.relationships_found,
                 p.1.relationships.map (fun sec => sec.links.map relLinkTypeConf))) =
      some (1, some [("many-to-one", (1 : Rat))]) := by
  decide

/-! ## Claim C4 -/

/-- 10 orders with `customer_id` values 1..10. -/
def ordersTen : List Doc :=
  (List.range 10).map (fun (i : Nat) =>
    [("_id", PyVal.int (100 + (i : Int))), ("customer_id", PyVal.int ((i : Int) + 1))])

/-- Scenario with 9 of the 10 checked values valid (customers 1..9). -/
def dbC4nine : DB :=
  ⟨[("orders", ⟨ordersTen, []⟩),
    ("customers", ⟨(List.range 9).map (fun (i : Nat) => [("_id", PyVal.int ((i : Int) + 1))]), []⟩)]⟩

/-- Scenario with exactly 8 of the 10 checked values valid (customers 1..8). -/
def dbC4eight : DB :=
  ⟨[("orders", ⟨ordersTen, []⟩),
    ("customers", ⟨(List.range 8).map (fun (i : Nat) => [("_id", PyVal.int ((i : Int) + 1))]), []⟩)]⟩

/-- The inferred field info of `orders.customer_id` in these scenarios. -/
def infoInt : FieldDef := { type := "integer", description := "Customer id" }

/-- The relationship the 9-of-10 scenario must emit. -/
def fkRel9 : FKRel :=
  { «from» := "orders", «to» := "customers", type := "many-to-one",
    field := "customer_id",
    description := "orders references customers via customer_id",
    confidence := mkRat 9 10 }

/-- Claim C4: a candidate foreign-key relationship is emitted exactly when
its validation confidence (`matches / checked`, 0 when nothing was checked)
is strictly greater than 0.8, and the emitted type is many-to-many exactly
for array-typed source fields; concretely, 9 valid of 10 checked emits the
`orders -> customers` many-to-one relationship and exactly 8 of 10
(confidence exactly 0.8) emits nothing. -/
theorem claim_C4 :
    (∀ (db : DB) (source field target : String) (info : FieldDef),
      ((validate_relationship db source field target info).isSome ↔
        fkConfidence db source field target info > mkRat 4 5) ∧
      (∀ r, validate_relationship db source field target info = some r →
        r.type = if info.type = "array" then "many-to-many" else "many-to-one")) ∧
    validate_relationship dbC4nine "orders" "customer_id" "customers" infoInt =
      some fkRel9 ∧
    validate_relationship dbC4eight "orders" "customer_id" "customers" infoInt =
      Option.none := by
  refine ⟨fun db source field target info => ⟨?_, ?_⟩, by decide, by decide⟩
  · by_cases h1 : (fkSampleDocs db source field).isEmpty
    · have hv : fkValues db source field info = [] := by
        unfold fkValues
        rw [List.isEmpty_iff.mp h1]
        rfl
      have hc : fkConfidence db source field target info = 0 := by
        unfold fkConfidence fkCheckValues
        rw [hv]
        rfl
      rw [hc]
      simp [validate_relationship, h1]
    · by_cases h2 : (fkValues db source field info).isEmpty
      · have hcv : fkCheckValues db source field info = [] := by
          unfold fkCheckValues
          rw [List.isEmpty_iff.mp h2]
          rfl
        have hc : fkConfidence db source field target info = 0 := by
          unfold fkConfidence
          rw [hcv]
          rfl
        rw [hc]
        simp [validate_relationship, h1, h2]
      · by_cases h3 : fkConfidence db source field target info > mkRat 4 5
        · simp [validate_relationship, h1, h2, h3]
        · simp [validate_relationship, h1, h2, h3]
  · intro r hr
    unfold validate_relationship at hr
    split_ifs at hr with h1 h2 h3 h4 <;> cases hr <;> simp [h4]

/-- Witness for claim C4: the theorem applied at the 9-of-10 scenario. -/
theorem claim_C4_witness :
    (validate_relationship dbC4nine "orders" "customer_id" "customers" infoInt).isSome ∧
    fkRel9.type = "many-to-one" := by
  constructor
  · exact (claim_C4.1 dbC4nine "orders" "customer_id" "customers" infoInt).1.mpr (by decide)
  · exact (claim_C4.1 dbC4nine "orders" "customer_id" "customers" infoInt).2 fkRel9
      claim_C4.2.1

/-! ## Claim C6 -/

/-- Claim C6: every schema returned by `analyze_collection` has
`sampled_documents = min(sampleSize, N)` where `N` is the collection's
document count; when `N = 0` the result has empty `fields` and `indexes`
and is produced without consulting the sampler (any sampler yields the very
same result). -/
theorem claim_C6 (db : DB) (sampler : Sampler) (name : String) (sample_size : Nat)
    (sch : CollAnalysis)
    (h : analyze_collection db sampler name sample_size = .ok sch) :
    sch.sampled_documents = min sample_size (getColl db name).docs.length ∧
    ((getColl db name).docs.length = 0 →
      sch.fields = [] ∧ sch.indexes = [] ∧
      ∀ sampler2 : Sampler,
        analyze_collection db sampler2 name sample_size = .ok sch) := by
  unfold analyze_collection at h
  by_cases h0 : (getColl db name).docs.length = 0
  · rw [if_pos h0] at h
    cases h
    refine ⟨by rw [h0]; simp, fun _ => ⟨rfl, rfl, fun sampler2 => ?_⟩⟩
    unfold analyze_collection
    rw [if_pos h0]
  · rw [if_neg h0] at h
    dsimp only [] at h
    split at h
    · cases h
    · cases h
      exact ⟨rfl, fun hc => absurd hc h0⟩

/-- An empty database for the C6 witness. -/
def dbEmpty : DB := ⟨[("empty", ⟨[], []⟩)]⟩

/-- The schema `analyze_collection` returns for the empty collection. -/
def schEmpty : CollAnalysis :=
  { collection := "empty", description := "Collection empty (empty)",
    fields := [], indexes := [], total_documents := 0, sampled_documents := 0 }

/-- Witness for claim C6: the theorem applied to an empty collection. -/
theorem claim_C6_witness :
    schEmpty.sampled_documents = min 7 (getColl dbEmpty "empty").docs.length ∧
    schEmpty.fields = [] := by
  have h := claim_C6 dbEmpty (takeSampler dbEmpty) "empty" 7 schEmpty rfl
  exact ⟨h.1, (h.2 rfl).1⟩

/-! ## Specification lemmas for the per-field pipeline -/

/-- What a successful `analyzeField` run guarantees: the primary type is the
most common tag, the stored example is the first recorded value, and
`enum_values` is the distinct value list exactly under the string-and-(1,10]
condition. -/
theorem analyzeField_ok_spec (st : FieldStats) (total_docs : Nat) (a : Analysis)
    (h : analyzeField st total_docs = .ok a) :
    a.primary_type = (counterMostCommon st.types).getD "unknown" ∧
    a.«example» = st.values.head? ∧
    a.enum_values =
      (if (counterMostCommon st.types).getD "unknown" = "string" ∧
          (pyDedup st.values).length ≤ 10 ∧ (pyDedup st.values).length > 1
       then some (pyDedup st.values) else Option.none) := by
  unfold analyzeField at h
  dsimp only [] at h
  by_cases hs : (counterMostCommon st.types).getD "unknown" = "string"
  · rw [if_pos hs] at h
    cases hset : pySetList st.values with
    | error e =>
      rw [hset] at h
      cases h
    | ok uniq =>
      have huniq : uniq = pyDedup st.values := by
        unfold pySetList at hset
        split at hset
        · cases hset
        · cases hset; rfl
      rw [hset] at h
      subst huniq
      simp only [bind, Except.bind] at h
      have hsarr : ¬ ((counterMostCommon st.types).getD "unknown" = "array") := by
        rw [hs]; decide
      by_cases hc : (pyDedup st.values).length ≤ 10 ∧ (pyDedup st.values).length > 1
      · rw [if_pos hc] at h
        simp only [Except.bind, Except.map, pure, Except.pure] at h
        rw [if_neg hsarr] at h
        cases h
        exact ⟨rfl, rfl, by rw [if_pos ⟨hs, hc.1, hc.2⟩]⟩
      · rw [if_neg hc] at h
        simp only [Except.bind, Except.map, pure, Except.pure] at h
        rw [if_neg hsarr] at h
        cases h
        refine ⟨rfl, rfl, ?_⟩
        rw [if_neg (fun hcon => hc ⟨hcon.2.1, hcon.2.2⟩)]
  · rw [if_neg hs] at h
    simp only [Except.map, pure, Except.pure] at h
    by_cases harr : (counterMostCommon st.types).getD "unknown" = "array"
    · rw [if_pos harr] at h
      cases hit : counterMostCommon (itemTypesOf st.values) with
      | none =>
        rw [hit] at h
        cases h
        exact ⟨rfl, rfl, by rw [if_neg (fun hcon => hs hcon.1)]⟩
      | some t =>
        rw [hit] at h
        cases h
        exact ⟨rfl, rfl, by rw [if_neg (fun hcon => hs hcon.1)]⟩
    · rw [if_neg harr] at h
      cases h
      exact ⟨rfl, rfl, by rw [if_neg (fun hcon => hs hcon.1)]⟩

/-- What a successful `buildFieldDef` run guarantees about the `enum` and
`example` keys: `example` is the stored first value when it is truthy, the
`enum` key carries the sorted distinct values exactly when a non-empty
`enum_values` set was recorded (and reaching the sort means it succeeded). -/
theorem buildFieldDef_ok_spec (fname : String) (a : Analysis)
    (idx : List (String × Bool)) (fd : FieldDef)
    (h : buildFieldDef fname a idx = .ok fd) :
    fd.«example» = a.«example».bind (fun v => if pyTruthy v then some v else Option.none) ∧
    (∀ uniq, a.enum_values = some uniq → 0 < uniq.length →
      ∃ l, pySortedE uniq = .ok l ∧ fd.enum = some l) ∧
    ((a.enum_values = Option.none ∨ a.enum_values = some []) →
      fd.enum = Option.none) := by
  unfold buildFieldDef at h
  dsimp only [] at h
  cases henum : a.enum_values with
  | none =>
    rw [henum] at h
    simp only [bind, Except.bind, pure, Except.pure] at h
    cases h
    refine ⟨?_, ?_, ?_⟩
    · cases hex : a.«example» with
      | none =>
        simp only [hex, Option.bind]
        (repeat' split) <;> rfl
      | some v =>
        by_cases ht : pyTruthy v <;> simp only [hex, Option.bind, ht] <;>
          simp only [if_true, Bool.false_eq_true, if_false] <;>
          (repeat' split) <;> rfl
    · intro uniq huniq
      cases huniq
    · intro _
      (repeat' split) <;> rfl
  | some uniq =>
    rw [henum] at h
    dsimp only [] at h
    by_cases hlen : uniq.length > 0
    · rw [if_pos hlen] at h
      cases hsort : pySortedE uniq with
      | error e =>
        rw [hsort] at h
        simp only [bind, Except.bind] at h
        cases h
      | ok l =>
        rw [hsort] at h
        simp only [bind, Except.bind, pure, Except.pure] at h
        cases h
        refine ⟨?_, ?_, ?_⟩
        · cases hex : a.«example» with
          | none =>
            simp only [hex, Option.bind]
            (repeat' split) <;> rfl
          | some v =>
            by_cases ht : pyTruthy v <;> simp only [hex, Option.bind, ht] <;>
              simp only [if_true, Bool.false_eq_true, if_false] <;>
              (repeat' split) <;> rfl
        · intro uniq' huniq' _
          cases huniq'
          refine ⟨l, hsort, ?_⟩
          (repeat' split) <;> rfl
        · intro hcon
          rcases hcon with hcon | hcon
          · cases hcon
          · cases hcon
            cases hlen
    · rw [if_neg hlen] at h
      simp only [bind, Except.bind, pure, Except.pure] at h
      cases h
      refine ⟨?_, ?_, ?_⟩
      · cases hex : a.«example» with
        | none =>
          simp only [hex, Option.bind]
          (repeat' split) <;> rfl
        | some v =>
          by_cases ht : pyTruthy v <;> simp only [hex, Option.bind, ht] <;>
            simp only [if_true, Bool.false_eq_true, if_false] <;>
            (repeat' split) <;> rfl
      · intro uniq' huniq' hlen'
        cases huniq'
        exact absurd hlen' hlen
      · intro _
        (repeat' split) <;> rfl

/-! ## Claim C7 -/

/-- A sample whose `status` field draws on exactly the three strings
`active`/`paused`/`cancelled`. -/
def docsStatus : List Doc :=
  [[("status", .str "active")], [("status", .str "paused")],
   [("status", .str "cancelled")], [("status", .str "active")]]

/-- Database holding the status collection. -/
def dbStatus : DB := ⟨[("s", ⟨docsStatus, []⟩)]⟩

/-- A sample with 11 distinct string values for the field `v`. -/
def docsEleven : List Doc :=
  (List.range 11).map (fun (i : Nat) => [("v", PyVal.str ("x" ++ toString i))])

/-- Database holding the 11-distinct-values collection. -/
def dbEleven : DB := ⟨[("e", ⟨docsEleven, []⟩)]⟩

/-- A sample with exactly 1 distinct string value for the field `s`. -/
def docsOne : List Doc := [[("s", .str "only")], [("s", .str "only")]]

/-- Database holding the 1-distinct-value collection. -/
def dbOne : DB := ⟨[("o", ⟨docsOne, []⟩)]⟩

/-- Claim C7: a field definition carries an `enum` key exactly when the
field's primary type is string and the number of distinct sampled values
lies in (1, 10], in which case `enum` is the sorted list of those distinct
values; concretely, values drawn from
`\x7b"active","paused","cancelled"\x7d` yield
`enum == ["active","cancelled","paused"]`, while 1-distinct and 11-distinct
string fields carry no `enum` key. -/
theorem claim_C7 :
    (∀ (st : FieldStats) (total_docs : Nat) (idx : List (String × Bool))
        (fname : String) (a : Analysis) (fd : FieldDef),
      analyzeField st total_docs = .ok a →
      buildFieldDef fname a idx = .ok fd →
      ((fd.enum.isSome ↔
         (a.primary_type = "string" ∧
          1 < (pyDedup st.values).length ∧ (pyDedup st.values).length ≤ 10)) ∧
       (∀ l, fd.enum = some l → pySortedE (pyDedup st.values) = .ok l))) ∧
    (analyze_collection dbStatus (takeSampler dbStatus) "s" 100).map
        (fun s => (dictLookup s.fields "status").map FieldDef.enum) =
      .ok (some (some [PyVal.str "active", PyVal.str "cancelled", PyVal.str "paused"])) ∧
    (analyze_collection dbEleven (takeSampler dbEleven) "e" 100).map
        (fun s => (dictLookup s.fields "v").map FieldDef.enum) =
      .ok (some Option.none) ∧
    (analyze_collection dbOne (takeSampler dbOne) "o" 100).map
        (fun s => (dictLookup s.fields "s").map FieldDef.enum) =
      .ok (some Option.none) := by
  refine ⟨?_, by with_unfolding_all rfl, by with_unfolding_all rfl, by with_unfolding_all rfl⟩
  intro st total_docs idx fname a fd ha hb
  obtain ⟨hpt, -, henum⟩ := analyzeField_ok_spec st total_docs a ha
  obtain ⟨-, hbsome, hbnone⟩ := buildFieldDef_ok_spec fname a idx fd hb
  by_cases hcond : (counterMostCommon st.types).getD "unknown" = "string" ∧
      (pyDedup st.values).length ≤ 10 ∧ (pyDedup st.values).length > 1
  · rw [if_pos hcond] at henum
    obtain ⟨l, hsort, hfd⟩ := hbsome _ henum (Nat.lt_trans Nat.zero_lt_one hcond.2.2)
    constructor
    · refine iff_of_true (by rw [hfd]; rfl) ⟨by rw [hpt]; exact hcond.1, hcond.2.2, hcond.2.1⟩
    · intro l' hl'
      rw [hfd] at hl'
      cases hl'
      exact hsort
  · rw [if_neg hcond] at henum
    have hfd := hbnone (Or.inl henum)
    constructor
    · refine iff_of_false (by rw [hfd]; simp) (fun hc => hcond ⟨?_, hc.2.2, hc.2.1⟩)
      rw [← hpt]
      exact hc.1
    · intro l' hl'
      rw [hfd] at hl'
      cases hl'

/-- The field statistics of the `status` field in the C7 scenario. -/
def stStatus : FieldStats :=
  (dictLookup (collect_field_stats docsStatus) "status").getD {}

/-- The C7 scenario's per-field analysis. -/
def aStatus : Analysis :=
  ((analyzeField stStatus 4).toOption).getD
    { primary_type := "", presence_rate := 0, «example» := Option.none }

/-- The C7 scenario's field definition. -/
def fdStatus : FieldDef :=
  ((buildFieldDef "status" aStatus [("_id", true)]).toOption).getD { type := "" }

/-- Witness for claim C7: the general rule applied to the concrete `status`
field. -/
theorem claim_C7_witness : fdStatus.enum.isSome := by
  exact (claim_C7.1 stStatus 4 [("_id", true)] "status" aStatus fdStatus
      (by with_unfolding_all rfl) (by with_unfolding_all rfl)).1.mpr
    ⟨by with_unfolding_all rfl, by decide, by decide⟩

/-! ## Claim C8 -/

/-- A one-document sample whose only field value is the integer 0 (stored,
but Python-falsy). -/
def dbZero : DB := ⟨[("z", ⟨[[("x", PyVal.int 0)]], []⟩)]⟩

/-- Claim C8, counterexample: for the field `x` of `dbZero` a sample value
was recorded (`values = [0]`), yet the produced field definition carries no
`example` key, because the source guards the key with Python truthiness
(`if analysis.get('example'):`) and `0` is falsy. -/
theorem claim_C8_counterexample :
    (dictLookup (collect_field_stats [[("x", PyVal.int 0)]]) "x").map FieldStats.values =
      some [PyVal.int 0] ∧
    (analyze_collection dbZero (takeSampler dbZero) "z" 5).map
      (fun s => (dictLookup s.fields "x").map (fun fd => fd.«example»)) =
      .ok (some Option.none) := ⟨rfl, rfl⟩

/-- Claim C8, amended: the `example` key equals the first recorded sample
value when that value is truthy, and is absent when no sample value was
recorded or the first recorded value is Python-falsy (0, False, "", []). -/
theorem claim_C8_amended (st : FieldStats) (total_docs : Nat)
    (idx : List (String × Bool)) (fname : String) (a : Analysis) (fd : FieldDef)
    (ha : analyzeField st total_docs = .ok a)
    (hb : buildFieldDef fname a idx = .ok fd) :
    fd.«example» =
      (st.values.head?).bind (fun v => if pyTruthy v then some v else Option.none) := by
  have h1 := (analyzeField_ok_spec st total_docs a ha).2.1
  have h2 := (buildFieldDef_ok_spec fname a idx fd hb).1
  rw [h2, h1]

/-- The field statistics of the `x` field of `dbZero`. -/
def stZero : FieldStats :=
  (dictLookup (collect_field_stats [[("x", PyVal.int 0)]]) "x").getD {}

/-- The corresponding per-field analysis. -/
def aZero : Analysis :=
  ((analyzeField stZero 1).toOption).getD
    { primary_type := "", presence_rate := 0, «example» := Option.none }

/-- The corresponding field definition. -/
def fdZero : FieldDef :=
  ((buildFieldDef "x" aZero [("_id", true)]).toOption).getD { type := "" }

/-- Witness for claim C8's amended rule: applied to the concrete falsy-0
field. -/
theorem claim_C8_witness : fdZero.«example» = Option.none := by
  have h := claim_C8_amended stZero 1 [("_id", true)] "x" aZero fdZero rfl rfl
  exact h.trans rfl

/-! ## Claim C2 -/

/-- Two collections sharing the indexed string field `track_id`: `a` holds
two distinct values, `b` holds five documents all carrying one of them. -/
def dbCorr : DB :=
  ⟨[("a", ⟨[[("track_id", .str "t1")], [("track_id", .str "t2")]],
      [("track_id", false)]⟩),
    ("b", ⟨List.replicate 5 [("track_id", .str "t1")], [("track_id", false)]⟩)]⟩

/-- The analyzed collections of `dbCorr` (the successful run's
`collections_data`, checked against the analysis pipeline in
`claim_C2_counterexample`). -/
def cdCorr : List (String × CollAnalysis) :=
  [("a",
    { collection := "a",
      description := "Auto-generated schema for a collection",
      fields := [("track_id",
                  { type := "string", description := "Track id",
                    indexed := true, unique := false,
                    enum := some [PyVal.str "t1", PyVal.str "t2"],
                    «example» := some (PyVal.str "t1"), items := Option.none })],
      indexes := ["track_id", "_id"],
      total_documents := 2, sampled_documents := 2 }),
   ("b",
    { collection := "b",
      description := "Auto-generated schema for b collection",
      fields := [("track_id",
                  { type := "string", description := "Track id",
                    indexed := true, unique := false, enum := Option.none,
                    «example» := some (PyVal.str "t1"), items := Option.none })],
      indexes := ["track_id", "_id"],
      total_documents := 5, sampled_documents := 5 })]

/-- The single correlation the detector emits on `dbCorr`. -/
def corrC2 : CorrRel :=
  { field := "track_id", collections := ["a", "b"],
    description := "Collections linked via shared track_id field",
    confidence := mkRat 5 2, sample_overlap := 5 }

set_option maxHeartbeats 4000000 in
/-- Claim C2, counterexample: the correlation detector emits, on `dbCorr`,
a correlation whose confidence is `5/2 > 1`: the match count counts
matching documents in the other collection (5 here), which exceeds the
number of sampled values (2), so confidence is not bounded by 1. -/
theorem claim_C2_counterexample :
    analyzeAll dbCorr (takeSampler dbCorr) ["a", "b"] 100 = .ok cdCorr ∧
    detect_correlation_fields dbCorr cdCorr = [corrC2] ∧
    decide (corrC2.confidence ≤ 1) = false := by
  refine ⟨rfl, rfl, by decide⟩

/-- Claim C2, amended: every emitted correlation has confidence strictly
greater than 0.5 (the upper bound 1.0 of the claim does not hold; the
confidence is `round(total_matches / (sample_size * others), 2)` and
`total_matches` counts matching documents, which can exceed the sample). -/
theorem claim_C2_amended (db : DB) (cd : List (String × CollAnalysis))
    (c : CorrRel) (h : c ∈ detect_correlation_fields db cd) :
    mkRat 1 2 < c.confidence := by
  unfold detect_correlation_fields at h
  obtain ⟨entry, -, he⟩ := List.mem_filterMap.mp h
  unfold corrOfEntry at he
  by_cases h1 : entry.2.length ≥ 2
  · rw [if_pos h1] at he
    cases hv : validate_correlation_field db entry.1 entry.2 with
    | none => rw [hv] at he; cases he
    | some overlap =>
      rw [hv] at he
      dsimp only [] at he
      by_cases h2 : overlap.confidence > mkRat 1 2
      · rw [if_pos h2] at he
        cases he
        exact h2
      · rw [if_neg h2] at he
        cases he
  · rw [if_neg h1] at he
    cases he

set_option maxHeartbeats 4000000 in
/-- Witness for claim C2's amended bound: applied to the concrete emitted
correlation of `dbCorr`. -/
theorem claim_C2_witness : mkRat 1 2 < corrC2.confidence := by
  refine claim_C2_amended dbCorr cdCorr corrC2 ?_
  have h : detect_correlation_fields dbCorr cdCorr = [corrC2] := by
    rfl
  rw [h]
  exact List.mem_singleton.mpr rfl

/-! ## Claim C9 -/

/-- The relationships block of the artifact a run writes, read off the pure
tail of `generate_schemas`. -/
theorem generateFrom_relationships (db : DB) (names : List String) (det : Bool)
    (strat : String) (st : Option SchemaArtifact)
    (cd : List (String × CollAnalysis)) :
    ((generateFrom db names det strat st cd).2).relationships =
      (if det && names.length > 1 then some (detect_relationships db cd)
       else Option.none) := rfl

/-- When `detect_relationships` reports an empty `links` list it is the
fixed no-relationships dictionary. -/
theorem detect_relationships_links_nil (db : DB)
    (cd : List (String × CollAnalysis))
    (h : (detect_relationships db cd).links = []) :
    (detect_relationships db cd).description =
      "No relationships detected between collections" := by
  unfold detect_relationships at h ⊢
  dsimp only [] at h ⊢
  split_ifs at h ⊢ with hc
  · rfl
  · exfalso
    have hrels : ((detectForeignKeys db cd).map RelLink.fk ++
        (detect_correlation_fields db cd).map RelLink.corr) = [] := h
    rw [hrels] at hc
    exact hc rfl

/-- Claim C9: the artifact a run writes carries a relationships block if
and only if detection was requested and more than one collection name was
given; the block never survives from the prior persisted artifact (any two
runs differing only in the prior artifact write the same block); and a
block with zero detected relationships is still present, with the
"No relationships detected between collections" description. -/
theorem claim_C9 (db : DB) (sampler : Sampler) (names : List String) (k : Nat)
    (det : Bool) (strat : String) (st : Option SchemaArtifact)
    (res : GenResult) (art' : SchemaArtifact)
    (h : generate_schemas db sampler names k det strat st = .ok (res, art')) :
    (art'.relationships.isSome ↔ (det = true ∧ 1 < names.length)) ∧
    (∀ st2 res2 art2,
       generate_schemas db sampler names k det strat st2 = .ok (res2, art2) →
       art2.relationships = art'.relationships) ∧
    (∀ sec, art'.relationships = some sec → sec.links = [] →
       sec.description = "No relationships detected between collections") := by
  obtain ⟨cd, hcd, hgen⟩ := generate_schemas_ok h
  have hart : art' = (generateFrom db names det strat st cd).2 := by rw [hgen]
  have hrel : art'.relationships =
      (if det && names.length > 1 then some (detect_relationships db cd)
       else Option.none) := by
    rw [hart, generateFrom_relationships]
  refine ⟨?_, ?_, ?_⟩
  · rw [hrel]
    by_cases hcond : (det && names.length > 1) = true
    · rw [if_pos hcond]
      simp only [Bool.and_eq_true, decide_eq_true_eq] at hcond
      exact iff_of_true rfl ⟨hcond.1, hcond.2⟩
    · rw [if_neg hcond]
      simp only [Bool.and_eq_true, decide_eq_true_eq] at hcond
      refine iff_of_false (by simp) (fun hc => hcond ⟨hc.1, hc.2⟩)
  · intro st2 res2 art2 h2
    obtain ⟨cd2, hcd2, hgen2⟩ := generate_schemas_ok h2
    rw [hcd] at hcd2
    injection hcd2 with hcd2
    subst hcd2
    have hart2 : art2 = (generateFrom db names det strat st2 cd).2 := by rw [hgen2]
    rw [hart2, generateFrom_relationships, hrel]
  · intro sec hsec hlinks
    rw [hrel] at hsec
    by_cases hcond : (det && names.length > 1) = true
    · rw [if_pos hcond] at hsec
      injection hsec with hsec
      subst hsec
      exact detect_relationships_links_nil db cd hlinks
    · rw [if_neg hcond] at hsec
      cases hsec

/-- Two empty collections for the C9 witness. -/
def db9 : DB := ⟨[("a", ⟨[], []⟩), ("b", ⟨[], []⟩)]⟩

/-- The no-relationships block the C9 witness run writes. -/
def secNoRel : RelSection :=
  { description := "No relationships detected between collections", links := [] }

/-- The generated schemas of the C9 witness run. -/
def schemas9 : List (String × CollOut) :=
  [("a", { description := "Collection a (empty)", fields := [] }),
   ("b", { description := "Collection b (empty)", fields := [] })]

/-- The artifact the C9 witness run writes. -/
def art9 : SchemaArtifact :=
  { description := "Auto-generated schemas for 2 collection(s)",
    collections := schemas9,
    relationships := some secNoRel }

/-- The result of the C9 witness run. -/
def res9 : GenResult :=
  { success := true, generated_schemas := schemas9,
    relationships := some secNoRel,
    stats := { collections_analyzed := 2, relationships_found := 0,
               total_fields := 0 } }

/-- Witness for claim C9: the theorem applied to a concrete two-collection
run with zero detected relationships. -/
theorem claim_C9_witness :
    art9.relationships.isSome ∧
    secNoRel.description = "No relationships detected between collections" := by
  have h := claim_C9 db9 (takeSampler db9) ["a", "b"] 5 true "merge" Option.none
    res9 art9 rfl
  exact ⟨h.1.mpr ⟨rfl, by decide⟩, h.2.2 secNoRel rfl rfl⟩

/-! ## Claims C3 and C5: merge and overwrite semantics -/

/-- The collections block of the artifact a run writes, read off the pure
tail of `generate_schemas`. -/
theorem generateFrom_collections (db : DB) (names : List String) (det : Bool)
    (strat : String) (st : Option SchemaArtifact)
    (cd : List (String × CollAnalysis)) :
    ((generateFrom db names det strat st cd).2).collections =
      (if strat = "merge"
       then merge_with_existing_schemas st (cd.map (fun p => (p.1, collOutOfAnalysis p.2)))
       else cd.map (fun p => (p.1, collOutOfAnalysis p.2))) := by
  unfold generateFrom
  split <;> rfl

/-- The `generated_schemas` of the returned result, read off the pure tail
of `generate_schemas` (it always equals the artifact's collections). -/
theorem generateFrom_generated_schemas (db : DB) (names : List String)
    (det : Bool) (strat : String) (st : Option SchemaArtifact)
    (cd : List (String × CollAnalysis)) :
    ((generateFrom db names det strat st cd).1).generated_schemas =
      (if strat = "merge"
       then merge_with_existing_schemas st (cd.map (fun p => (p.1, collOutOfAnalysis p.2)))
       else cd.map (fun p => (p.1, collOutOfAnalysis p.2))) := by
  unfold generateFrom
  split <;> rfl

/-- Claim C3, amended: under merge strategy `"merge"`, every collection
present in the persisted artifact whose name is not in the requested list
is still present, with its previous definition, in the artifact the run
writes (under `"overwrite"` the artifact is rebuilt from only the freshly
analyzed collections). -/
theorem claim_C3_amended (db : DB) (sampler : Sampler) (names : List String)
    (k : Nat) (det : Bool) (st : SchemaArtifact) (res : GenResult)
    (art' : SchemaArtifact) (name : String) (cs : CollOut)
    (h : generate_schemas db sampler names k det "merge" (some st) = .ok (res, art'))
    (hname : name ∉ names)
    (hcs : dictLookup st.collections name = some cs) :
    dictLookup art'.collections name = some cs := by
  obtain ⟨cd, hcd, hgen⟩ := generate_schemas_ok h
  have hart : art'.collections = merge_with_existing_schemas (some st)
      (cd.map (fun p => (p.1, collOutOfAnalysis p.2))) := by
    have : art' = (generateFrom db names det "merge" (some st) cd).2 := by rw [hgen]
    rw [this, generateFrom_collections, if_pos rfl]
  rw [hart]
  unfold merge_with_existing_schemas
  dsimp only []
  have hnodup : ((((cd.map (fun p => (p.1, collOutOfAnalysis p.2))).map
      (fun p => (p.1, mergeCollOut st.collections p.1 p.2))).map Prod.fst).Nodup) := by
    have e1 := keys_map_entry (cd.map (fun p => (p.1, collOutOfAnalysis p.2)))
      (fun n v => mergeCollOut st.collections n v)
    have e2 := keys_map_entry cd (fun _ v => collOutOfAnalysis v)
    rw [e1, e2]
    exact analyzeAllLoop_keys_nodup names [] cd (by simp) hcd
  rw [dictLookup_dictUnion _ _ hnodup name]
  have hnone : dictLookup ((cd.map (fun p => (p.1, collOutOfAnalysis p.2))).map
      (fun p => (p.1, mergeCollOut st.collections p.1 p.2))) name = Option.none := by
    have e1 := dictLookup_map_entry (cd.map (fun p => (p.1, collOutOfAnalysis p.2)))
      (fun n v => mergeCollOut st.collections n v) name
    have e2 := dictLookup_map_entry cd (fun _ v => collOutOfAnalysis v) name
    rw [e1, e2]
    have : dictLookup cd name = Option.none := by
      rw [analyzeAllLoop_lookup names [] cd name hcd, if_neg hname]
      rfl
    rw [this]
    rfl
  rw [hnone]
  exact hcs

/-- A collection definition persisted by an earlier run. -/
def legacyOut : CollOut :=
  { description := "legacy docs",
    fields := [("x", { type := "string", description := "X" })] }

/-- The prior persisted artifact holding only `legacy`. -/
def artPrior : SchemaArtifact :=
  { description := "old", collections := [("legacy", legacyOut)],
    relationships := Option.none }

/-- A database holding only the collection `c` that the C3 runs analyze. -/
def db3 : DB := ⟨[("c", ⟨[[("y", PyVal.int 1)]], []⟩)]⟩

/-- Claim C3, counterexample: under merge strategy `overwrite`, a
collection present in the persisted artifact but not in the run
(`legacy` here) is dropped from the artifact the run writes, not left
untouched. -/
theorem claim_C3_counterexample :
    dictLookup artPrior.collections "legacy" = some legacyOut ∧
    (generate_schemas db3 (takeSampler db3) ["c"] 5 true "overwrite" (some artPrior)).map
      (fun p => dictLookup p.2.collections "legacy") = .ok Option.none := ⟨rfl, rfl⟩

/-- The fresh field definition of `c.y`. -/
def freshY : FieldDef :=
  { type := "integer", description := "Y", «example» := some (PyVal.int 1) }

/-- The fresh `c` schema of the C3 witness run. -/
def freshC : CollOut :=
  { description := "Auto-generated schema for c collection",
    fields := [("y", freshY)] }

/-- The collections written by the C3 witness merge run. -/
def collsM : List (String × CollOut) := [("legacy", legacyOut), ("c", freshC)]

/-- The artifact written by the C3 witness merge run. -/
def artM : SchemaArtifact :=
  { description := "Auto-generated schemas for 1 collection(s)",
    collections := collsM, relationships := Option.none }

/-- The result of the C3 witness merge run. -/
def resM : GenResult :=
  { success := true, generated_schemas := collsM,
    relationships := Option.none,
    stats := { collections_analyzed := 1, relationships_found := 0,
               total_fields := 2 } }

/-- Witness for claim C3's amended rule: the untouched `legacy` collection
of a concrete merge run. -/
theorem claim_C3_witness : dictLookup artM.collections "legacy" = some legacyOut := by
  exact claim_C3_amended db3 (takeSampler db3) ["c"] 5 true artPrior resM artM
    "legacy" legacyOut rfl (by decide) rfl

/-- Claim C5: under `"merge"`, for a requested collection also on disk the
persisted field definitions take precedence for names present in both and
fresh-only fields are added (a field lookup on the written artifact is the
persisted lookup, falling back to the fresh one); under `"overwrite"` the
run is independent of the persisted artifact and writes exactly the freshly
generated schemas, so a second overwrite run leaves exactly its own field
set. -/
theorem claim_C5 :
    (∀ (db : DB) (sampler : Sampler) (names : List String) (k : Nat) (det : Bool)
        (st : SchemaArtifact) (res : GenResult) (art' : SchemaArtifact)
        (cname : String) (cs : CollOut) (aData : CollAnalysis) (fld : String),
      generate_schemas db sampler names k det "merge" (some st) = .ok (res, art') →
      cname ∈ names →
      analyze_collection db sampler cname k = .ok aData →
      dictLookup st.collections cname = some cs →
      (cs.fields.map Prod.fst).Nodup →
      (dictLookup art'.collections cname).map (fun m => dictLookup m.fields fld) =
        some ((dictLookup cs.fields fld).orElse
          (fun _ => dictLookup aData.fields fld))) ∧
    (∀ (db : DB) (sampler : Sampler) (names : List String) (k : Nat) (det : Bool)
        (st st2 : Option SchemaArtifact),
      generate_schemas db sampler names k det "overwrite" st =
        generate_schemas db sampler names k det "overwrite" st2) ∧
    (∀ (db : DB) (sampler : Sampler) (names : List String) (k : Nat) (det : Bool)
        (st : Option SchemaArtifact) (res : GenResult) (art' : SchemaArtifact),
      generate_schemas db sampler names k det "overwrite" st = .ok (res, art') →
      art'.collections = res.generated_schemas ∧
      (analyzeAll db sampler names k).map (fun cd =>
        cd.map (fun p => (p.1, collOutOfAnalysis p.2))) =
        .ok res.generated_schemas) := by
  refine ⟨?_, ?_, ?_⟩
  · intro db sampler names k det st res art' cname cs aData fld h hmem ha hcs hnodup_cs
    obtain ⟨cd, hcd, hgen⟩ := generate_schemas_ok h
    have hart : art'.collections = merge_with_existing_schemas (some st)
        (cd.map (fun p => (p.1, collOutOfAnalysis p.2))) := by
      have : art' = (generateFrom db names det "merge" (some st) cd).2 := by rw [hgen]
      rw [this, generateFrom_collections, if_pos rfl]
    have hlook : dictLookup cd cname = some aData := by
      rw [analyzeAllLoop_lookup names [] cd cname hcd, if_pos hmem, ha]
      rfl
    have hs0 : dictLookup (cd.map (fun p => (p.1, collOutOfAnalysis p.2))) cname =
        some (collOutOfAnalysis aData) := by
      have e := dictLookup_map_entry cd (fun _ v => collOutOfAnalysis v) cname
      rw [e, hlook]
      rfl
    have hupd : dictLookup ((cd.map (fun p => (p.1, collOutOfAnalysis p.2))).map
        (fun p => (p.1, mergeCollOut st.collections p.1 p.2))) cname =
        some { collOutOfAnalysis aData with
               fields := dictUnion aData.fields cs.fields } := by
      have e := dictLookup_map_entry (cd.map (fun p => (p.1, collOutOfAnalysis p.2)))
        (fun n v => mergeCollOut st.collections n v) cname
      rw [e, hs0]
      unfold mergeCollOut
      rw [hcs]
      rfl
    have hnodup_upd : ((((cd.map (fun p => (p.1, collOutOfAnalysis p.2))).map
        (fun p => (p.1, mergeCollOut st.collections p.1 p.2))).map Prod.fst).Nodup) := by
      have e1 := keys_map_entry (cd.map (fun p => (p.1, collOutOfAnalysis p.2)))
        (fun n v => mergeCollOut st.collections n v)
      have e2 := keys_map_entry cd (fun _ v => collOutOfAnalysis v)
      rw [e1, e2]
      exact analyzeAllLoop_keys_nodup names [] cd (by simp) hcd
    rw [hart]
    unfold merge_with_existing_schemas
    dsimp only []
    rw [dictLookup_dictUnion _ _ hnodup_upd cname, hupd]
    simp only [Option.orElse, Option.map]
    rw [dictLookup_dictUnion aData.fields cs.fields hnodup_cs fld]
    rfl
  · intro db sampler names k det st st2
    unfold generate_schemas
    congr 1
  · intro db sampler names k det st res art' h
    obtain ⟨cd, hcd, hgen⟩ := generate_schemas_ok h
    have hres : res = (generateFrom db names det "overwrite" st cd).1 := by rw [hgen]
    have hart : art' = (generateFrom db names det "overwrite" st cd).2 := by rw [hgen]
    have hovr : ¬ (("overwrite" : String) = "merge") := by decide
    constructor
    · rw [hres, hart, generateFrom_collections, generateFrom_generated_schemas,
        if_neg hovr]
    · rw [hcd, hres, generateFrom_generated_schemas, if_neg hovr]
      rfl

/-- The database of the C5 witness: `c` holds one document with fields
`a` and `b`. -/
def db5 : DB := ⟨[("c", ⟨[[("a", PyVal.int 1), ("b", PyVal.int 2)]], []⟩)]⟩

/-- The persisted `c` definition: an older `a` and a manual `z`. -/
def cs5 : CollOut :=
  { description := "manual c",
    fields := [("a", { type := "string", description := "Old a" }),
               ("z", { type := "string", description := "Manual z" })] }

/-- The prior artifact of the C5 witness. -/
def st5 : SchemaArtifact :=
  { description := "prior", collections := [("c", cs5)],
    relationships := Option.none }

/-- The fresh analysis of `c` in the C5 witness run. -/
def aData5 : CollAnalysis :=
  { collection := "c",
    description := "Auto-generated schema for c collection",
    fields := [("a", { type := "integer", description := "A",
                       «example» := some (PyVal.int 1) }),
               ("b", { type := "integer", description := "B",
                       «example» := some (PyVal.int 2) })],
    indexes := ["_id"], total_documents := 1, sampled_documents := 1 }

/-- The merged `c` entry the C5 witness run writes: persisted `a` wins,
fresh `b` is added, persisted-only `z` is kept. -/
def mergedC5 : CollOut :=
  { description := "Auto-generated schema for c collection",
    fields := [("a", { type := "string", description := "Old a" }),
               ("b", { type := "integer", description := "B",
                       «example» := some (PyVal.int 2) }),
               ("z", { type := "string", description := "Manual z" })] }

/-- The artifact written by the C5 witness run. -/
def art5 : SchemaArtifact :=
  { description := "Auto-generated schemas for 1 collection(s)",
    collections := [("c", mergedC5)], relationships := Option.none }

/-- The result of the C5 witness run. -/
def res5 : GenResult :=
  { success := true, generated_schemas := [("c", mergedC5)],
    relationships := Option.none,
    stats := { collections_analyzed := 1, relationships_found := 0,
               total_fields := 3 } }

/-- Witness for claim C5: the merge-precedence rule applied to a concrete
run (the persisted `a` definition wins over the fresh one). -/
theorem claim_C5_witness :
    (dictLookup art5.collections "c").map (fun m => dictLookup m.fields "a") =
      some ((dictLookup cs5.fields "a").orElse
        (fun _ => dictLookup aData5.fields "a")) := by
  exact claim_C5.1 db5 (takeSampler db5) ["c"] 5 false st5 res5 art5 "c" cs5
    aData5 "a" rfl (by decide) rfl rfl (by decide)

end SchemaGen
